import Mathlib

/-!
Shallow embedding of the credential-and-trust subsystem of
`thiefspin/rust-web-service` (files `src/models/auth_user.rs`,
`src/services/auth_service.rs`, `src/middleware/auth.rs`, `src/errors.rs`,
`src/config.rs`), together with theorems settling the frozen claims about it.

Modelling conventions:
- Time is a `Nat` counting seconds (a `chrono::DateTime<Utc>` timestamp);
  every operation that reads the clock (`Utc::now()`) takes the current
  time `now` as an explicit argument.  `chrono::Duration::minutes(15)` is
  `15 * 60` seconds, `chrono::Duration::hours(1)` is `60 * 60` seconds.
- `Uuid` values generated freshly inside an operation (`Uuid::new_v4()`)
  are passed in as explicit parameters (record id as `Nat`, tokens as
  `String`), making the nondeterminism explicit.
- bcrypt (`bcrypt::hash` / `bcrypt::verify`) is modelled as an ideal
  keyed one-way function: a hash is an opaque value `Hash` from which
  `bverify` can check exact equality with the original password and
  nothing else.  This captures the functional contract
  `verify(p, hash(p)) = true` and `verify(q, hash(p)) = false` for
  `q ≠ p`; salting and hash-format failures are out of scope.
- The Postgres store behind `AuthService` is a `List AuthUser`; the
  `SELECT ... WHERE col = $1` + `fetch_one` helpers become `List.find?`
  (first match, `sqlx::Error::RowNotFound` mapped to
  `ServiceError.NotFound` by the `From<sqlx::Error>` impl in
  `src/errors.rs`), and each `UPDATE ... WHERE id = $n` helper rewrites
  exactly the field group named in its SQL on every row with that id.
- Each `AuthService` operation returns the pair of its Rust return value
  (`Except ServiceError α` for `ServiceResult<α>`) and the store after
  the operation, since failing paths can also persist writes.
- JWTs: `jsonwebtoken::encode` with `Header::default()` over a secret is
  modelled as the pair of the claims and the signing secret; `decode`
  with `Validation::default()` checks the signature (secret equality)
  and then the `exp` claim.  `jsonwebtoken`'s `Validation::default()`
  has `validate_exp = true` with a default `leeway` of 60 seconds: a
  token is rejected as expired exactly when `exp < now - leeway`
  (saturating subtraction on unsigned seconds).  `ErrorKind::ExpiredSignature`
  maps to `ServiceError.TokenExpired` and a bad signature
  (`ErrorKind::InvalidSignature`) falls into the catch-all
  `ServiceError.JwtError` arm of `From<jsonwebtoken::errors::Error>`.
-/

/-- The error taxonomy of `src/errors.rs` (`enum ServiceError`). -/
inductive ServiceError where
  | Unauthorized
  | Forbidden
  | NotFound
  | BadRequest (msg : String)
  | ValidationError (msg : String)
  | UserAlreadyExists
  | InvalidCredentials
  | TokenExpired
  | InvalidToken
  | DatabaseError
  | InternalError
  | PasswordHashError
  | JwtError (msg : String)
deriving DecidableEq, Repr

/-- An opaque bcrypt hash: `bcrypt::hash(password, cost)` modelled as an
ideal injective one-way function (see header comment). -/
structure Hash where
  cost : Nat
  pw : String
deriving DecidableEq, Repr

/-- `bcrypt::hash(password, cost)`. -/
def bhash (password : String) (cost : Nat) : Hash := ⟨cost, password⟩

/-- `bcrypt::verify(password, hash)`: true exactly when `hash` was produced
from `password`. -/
def bverify (password : String) (h : Hash) : Bool := h.pw == password

/-- The process configuration of `src/config.rs` (`struct Config`), fields
irrelevant to the claims omitted.  `jwt_expiration` is an `i64` of seconds. -/
structure Config where
  jwt_secret : String
  jwt_expiration : Int
  bcrypt_cost : Nat
deriving DecidableEq, Repr

/-- `struct AuthUser` of `src/models/auth_user.rs`. -/
structure AuthUser where
  id : Nat
  email : String
  password_hash : Hash
  is_active : Bool
  is_verified : Bool
  created_at : Nat
  updated_at : Nat
  last_login : Option Nat
  failed_login_attempts : Int
  locked_until : Option Nat
  verification_token : Option String
  reset_token : Option String
  reset_token_expires : Option Nat
deriving DecidableEq, Repr

/-- `AuthUser::new(email, password_hash)`: fresh id and verification token
(`Uuid::new_v4()`) passed explicitly, `now = Utc::now()`. -/
def AuthUser.new (email : String) (password_hash : Hash) (now : Nat)
    (freshId : Nat) (freshVerificationToken : String) : AuthUser where
  id := freshId
  email := email
  password_hash := password_hash
  is_active := true
  is_verified := false
  created_at := now
  updated_at := now
  last_login := none
  failed_login_attempts := 0
  locked_until := none
  verification_token := some freshVerificationToken
  reset_token := none
  reset_token_expires := none

/-- `AuthUser::is_locked`: `locked_until` set and `Utc::now()` strictly
before it. -/
def AuthUser.is_locked (u : AuthUser) (now : Nat) : Bool :=
  match u.locked_until with
  | some lockedUntil => now < lockedUntil
  | none => false

/-- `AuthUser::can_login`: `is_active && !is_locked()`. -/
def AuthUser.can_login (u : AuthUser) (now : Nat) : Bool :=
  u.is_active && !(u.is_locked now)

/-- `AuthUser::increment_failed_attempts`: bump the counter; at 5 or more,
lock for 15 minutes from now; always bump `updated_at`. -/
def AuthUser.increment_failed_attempts (u : AuthUser) (now : Nat) : AuthUser :=
  let failed := u.failed_login_attempts + 1
  { u with
    failed_login_attempts := failed
    locked_until := if failed ≥ 5 then some (now + 15 * 60) else u.locked_until
    updated_at := now }

/-- `AuthUser::reset_failed_attempts`. -/
def AuthUser.reset_failed_attempts (u : AuthUser) (now : Nat) : AuthUser :=
  { u with
    failed_login_attempts := 0
    locked_until := none
    last_login := some now
    updated_at := now }

/-- `AuthUser::generate_reset_token`: fresh token (`Uuid::new_v4()`) passed
explicitly; expiry is one hour from now. -/
def AuthUser.generate_reset_token (u : AuthUser) (freshToken : String)
    (now : Nat) : AuthUser :=
  { u with
    reset_token := some freshToken
    reset_token_expires := some (now + 60 * 60)
    updated_at := now }

/-- `AuthUser::clear_reset_token`. -/
def AuthUser.clear_reset_token (u : AuthUser) (now : Nat) : AuthUser :=
  { u with
    reset_token := none
    reset_token_expires := none
    updated_at := now }

/-- `AuthUser::is_reset_token_valid(token)`: stored token equals the supplied
one and `Utc::now()` is strictly before the stored expiry. -/
def AuthUser.is_reset_token_valid (u : AuthUser) (token : String)
    (now : Nat) : Bool :=
  match u.reset_token, u.reset_token_expires with
  | some storedToken, some expires => storedToken == token && now < expires
  | _, _ => false

/-- `AuthUser::verify_email`. -/
def AuthUser.verify_email (u : AuthUser) (now : Nat) : AuthUser :=
  { u with
    is_verified := true
    verification_token := none
    updated_at := now }

/-- `AuthUser::update_password(new_password_hash)`: replace the hash, bump
`updated_at`, then `clear_reset_token()` (which bumps `updated_at` again,
with the same clock in this single-instant model). -/
def AuthUser.update_password (u : AuthUser) (newPasswordHash : Hash)
    (now : Nat) : AuthUser :=
  AuthUser.clear_reset_token { u with password_hash := newPasswordHash, updated_at := now } now

/-- `struct Claims` of `src/models/auth_user.rs` (JWT claims). -/
structure Claims where
  sub : String
  email : String
  exp : Nat
  iat : Nat
deriving DecidableEq, Repr

/-- `Claims::new(user_id, email, expires_in_seconds)`:
`exp = (now + expires_in_seconds).timestamp() as usize`, `iat = now`. -/
def Claims.new (userId : Nat) (email : String) (expiresInSeconds : Int)
    (now : Nat) : Claims where
  sub := toString userId
  email := email
  exp := ((now : Int) + expiresInSeconds).toNat
  iat := now

/-- A signed JWT: the claims plus the secret they were signed with
(`jsonwebtoken::encode(&Header::default(), &claims, &key)` modelled as the
pair; signature validity = secret equality at decode time). -/
structure Jwt where
  claims : Claims
  secret : String
deriving DecidableEq, Repr

/-- `generate_jwt_token(user_id, email)` of `src/middleware/auth.rs`:
claims with the configured TTL, signed with the configured secret. -/
def generate_jwt_token (userId : Nat) (email : String) (now : Nat)
    (cfg : Config) : Jwt :=
  { claims := Claims.new userId email cfg.jwt_expiration now
    secret := cfg.jwt_secret }

/-- `jsonwebtoken`'s default expiry leeway (`Validation::default()` sets
`leeway: 60` seconds). -/
def jwtDefaultLeeway : Nat := 60

/-- `verify_jwt_token(token)` of `src/middleware/auth.rs`:
`decode::<Claims>` with `Validation::default()` — signature first, then the
`exp` claim with the default 60-second leeway (expired exactly when
`exp < now - leeway`, saturating on unsigned seconds) — with
`jsonwebtoken` errors mapped by `From<jsonwebtoken::errors::Error>` in
`src/errors.rs` (`ExpiredSignature ↦ TokenExpired`, a signature mismatch
falls in the catch-all `JwtError` arm). -/
def verify_jwt_token (token : Jwt) (now : Nat) (cfg : Config) :
    Except ServiceError Claims :=
  if token.secret == cfg.jwt_secret then
    if token.claims.exp < now - jwtDefaultLeeway then
      .error .TokenExpired
    else
      .ok token.claims
  else
    .error (.JwtError "InvalidSignature")

/-- `struct UserInfo` (public user info in auth responses). -/
structure UserInfo where
  id : Nat
  email : String
  is_verified : Bool
  created_at : Nat
  last_login : Option Nat
deriving DecidableEq, Repr

/-- `impl From<AuthUser> for UserInfo`. -/
def UserInfo.ofAuthUser (u : AuthUser) : UserInfo where
  id := u.id
  email := u.email
  is_verified := u.is_verified
  created_at := u.created_at
  last_login := u.last_login

/-- `struct AuthResponse`. -/
structure AuthResponse where
  access_token : Jwt
  token_type : String
  expires_in : Int
  user : UserInfo
deriving DecidableEq, Repr

/-- `struct MessageResponse`. -/
structure MessageResponse where
  message : String
deriving DecidableEq, Repr

/-- `struct RegisterRequest`. -/
structure RegisterRequest where
  email : String
  password : String
deriving DecidableEq, Repr

/-- `struct LoginRequest`. -/
structure LoginRequest where
  email : String
  password : String
deriving DecidableEq, Repr

/-- `struct ResetPasswordRequest`. -/
structure ResetPasswordRequest where
  email : String
deriving DecidableEq, Repr

/-- `struct ConfirmResetPasswordRequest`. -/
structure ConfirmResetPasswordRequest where
  token : String
  new_password : String
deriving DecidableEq, Repr

/-- `struct ChangePasswordRequest`. -/
structure ChangePasswordRequest where
  current_password : String
  new_password : String
deriving DecidableEq, Repr

/-- The `auth_users` table behind the `sqlx` pool: a list of rows. -/
abbrev Store := List AuthUser

/-- `AuthService::get_user_by_email`: `SELECT ... WHERE email = $1` +
`fetch_one`; `RowNotFound` becomes `ServiceError::NotFound`. -/
def get_user_by_email (st : Store) (email : String) :
    Except ServiceError AuthUser :=
  match st.find? (fun u => u.email == email) with
  | some u => .ok u
  | none => .error .NotFound

/-- `AuthService::get_user_by_id`. -/
def get_user_by_id (st : Store) (userId : Nat) :
    Except ServiceError AuthUser :=
  match st.find? (fun u => u.id == userId) with
  | some u => .ok u
  | none => .error .NotFound

/-- `AuthService::get_user_by_verification_token`
(`WHERE verification_token = $1`; a SQL `NULL` column never matches). -/
def get_user_by_verification_token (st : Store) (token : String) :
    Except ServiceError AuthUser :=
  match st.find? (fun u => u.verification_token == some token) with
  | some u => .ok u
  | none => .error .NotFound

/-- `AuthService::get_user_by_reset_token` (`WHERE reset_token = $1`). -/
def get_user_by_reset_token (st : Store) (token : String) :
    Except ServiceError AuthUser :=
  match st.find? (fun u => u.reset_token == some token) with
  | some u => .ok u
  | none => .error .NotFound

/-- `AuthService::update_user_login_attempts`: `UPDATE auth_users SET
failed_login_attempts, locked_until, updated_at WHERE id`. -/
def update_user_login_attempts (st : Store) (user : AuthUser) : Store :=
  st.map fun u =>
    if u.id == user.id then
      { u with
        failed_login_attempts := user.failed_login_attempts
        locked_until := user.locked_until
        updated_at := user.updated_at }
    else u

/-- `AuthService::update_user_successful_login`: also writes `last_login`. -/
def update_user_successful_login (st : Store) (user : AuthUser) : Store :=
  st.map fun u =>
    if u.id == user.id then
      { u with
        failed_login_attempts := user.failed_login_attempts
        locked_until := user.locked_until
        last_login := user.last_login
        updated_at := user.updated_at }
    else u

/-- `AuthService::update_user_verification`: writes `is_verified`,
`verification_token`, `updated_at`. -/
def update_user_verification (st : Store) (user : AuthUser) : Store :=
  st.map fun u =>
    if u.id == user.id then
      { u with
        is_verified := user.is_verified
        verification_token := user.verification_token
        updated_at := user.updated_at }
    else u

/-- `AuthService::update_user_reset_token`: writes `reset_token`,
`reset_token_expires`, `updated_at`. -/
def update_user_reset_token (st : Store) (user : AuthUser) : Store :=
  st.map fun u =>
    if u.id == user.id then
      { u with
        reset_token := user.reset_token
        reset_token_expires := user.reset_token_expires
        updated_at := user.updated_at }
    else u

/-- `AuthService::update_user_password`: writes `password_hash`,
`reset_token`, `reset_token_expires`, `updated_at`. -/
def update_user_password (st : Store) (user : AuthUser) : Store :=
  st.map fun u =>
    if u.id == user.id then
      { u with
        password_hash := user.password_hash
        reset_token := user.reset_token
        reset_token_expires := user.reset_token_expires
        updated_at := user.updated_at }
    else u

/-- `AuthService::register`: existence check by exact email lookup, then
hash, construct via `AuthUser::new`, `INSERT`.  The fresh id and
verification token are explicit parameters. -/
def register (st : Store) (request : RegisterRequest) (now : Nat)
    (cfg : Config) (freshId : Nat) (freshVerificationToken : String) :
    Except ServiceError MessageResponse × Store :=
  match get_user_by_email st request.email with
  | .ok _ => (.error .UserAlreadyExists, st)
  | .error _ =>
    let password_hash := bhash request.password cfg.bcrypt_cost
    let user := AuthUser.new request.email password_hash now freshId
      freshVerificationToken
    (.ok ⟨"User registered successfully. Please check your email for verification."⟩,
     st ++ [user])

/-- `AuthService::login`: load by email (`?` propagates `NotFound`),
gate on `can_login`, verify the password, persist failure or success,
and on success mint a JWT. -/
def login (st : Store) (request : LoginRequest) (now : Nat) (cfg : Config) :
    Except ServiceError AuthResponse × Store :=
  match get_user_by_email st request.email with
  | .error e => (.error e, st)
  | .ok user =>
    if !user.can_login now then
      (.error .Unauthorized, st)
    else if !bverify request.password user.password_hash then
      let user := user.increment_failed_attempts now
      (.error .InvalidCredentials, update_user_login_attempts st user)
    else
      let user := user.reset_failed_attempts now
      (.ok
        { access_token := generate_jwt_token user.id user.email now cfg
          token_type := "Bearer"
          expires_in := cfg.jwt_expiration
          user := UserInfo.ofAuthUser user },
       update_user_successful_login st user)

/-- `AuthService::verify_email`. -/
def service_verify_email (st : Store) (request : String) (now : Nat) :
    Except ServiceError MessageResponse × Store :=
  match get_user_by_verification_token st request with
  | .error e => (.error e, st)
  | .ok user =>
    if user.verification_token ≠ some request then
      (.error .InvalidToken, st)
    else
      let user := user.verify_email now
      (.ok ⟨"Email verified successfully."⟩, update_user_verification st user)

/-- `AuthService::request_password_reset`: on `NotFound`, return the same
generic message as the success path; otherwise issue a reset token
(fresh secret passed explicitly) and persist.  The token is logged, not
returned. -/
def request_password_reset (st : Store) (request : ResetPasswordRequest)
    (now : Nat) (freshToken : String) :
    Except ServiceError MessageResponse × Store :=
  match get_user_by_email st request.email with
  | .error .NotFound =>
    (.ok ⟨"If the email exists, a password reset link has been sent."⟩, st)
  | .error e => (.error e, st)
  | .ok user =>
    let user := user.generate_reset_token freshToken now
    (.ok ⟨"If the email exists, a password reset link has been sent."⟩,
     update_user_reset_token st user)

/-- `AuthService::confirm_password_reset`: load by reset token (`?`
propagates `NotFound`), check `is_reset_token_valid`, then hash the new
password and persist via `update_password`. -/
def confirm_password_reset (st : Store)
    (request : ConfirmResetPasswordRequest) (now : Nat) (cfg : Config) :
    Except ServiceError MessageResponse × Store :=
  match get_user_by_reset_token st request.token with
  | .error e => (.error e, st)
  | .ok user =>
    if !user.is_reset_token_valid request.token now then
      (.error .InvalidToken, st)
    else
      let newHash := bhash request.new_password cfg.bcrypt_cost
      let user := user.update_password newHash now
      (.ok ⟨"Password reset successfully."⟩, update_user_password st user)

/-- `AuthService::change_password`. -/
def change_password (st : Store) (userId : Nat)
    (request : ChangePasswordRequest) (now : Nat) (cfg : Config) :
    Except ServiceError MessageResponse × Store :=
  match get_user_by_id st userId with
  | .error e => (.error e, st)
  | .ok user =>
    if !bverify request.current_password user.password_hash then
      (.error .InvalidCredentials, st)
    else
      let newHash := bhash request.new_password cfg.bcrypt_cost
      let user := user.update_password newHash now
      (.ok ⟨"Password changed successfully."⟩, update_user_password st user)

/-- `AuthService::refresh_token`: load by id, re-check `can_login`, mint a
fresh token. -/
def refresh_token (st : Store) (userId : Nat) (now : Nat) (cfg : Config) :
    Except ServiceError AuthResponse :=
  match get_user_by_id st userId with
  | .error e => .error e
  | .ok user =>
    if !user.can_login now then
      .error .Unauthorized
    else
      .ok
        { access_token := generate_jwt_token user.id user.email now cfg
          token_type := "Bearer"
          expires_in := cfg.jwt_expiration
          user := UserInfo.ofAuthUser user }

/-!  Shared concrete sample data for witnesses and counterexamples. -/

/-- A sample process configuration (secret, TTL 3600 s, bcrypt cost 12). -/
def sampleCfg : Config := ⟨"secret", 3600, 12⟩

/-- A freshly registered sample record (password "Good1!aa", id 7). -/
def sampleUser : AuthUser := AuthUser.new "a@x.com" (bhash "Good1!aa" 12) 0 7 "vt"

/-- `sampleUser` locked until time 100. -/
def sampleLockedUser : AuthUser := { sampleUser with locked_until := some 100 }

/-!  Claim theorems. -/

/-- C1, counterexample: on a store with no record at all, `login` returns
`ServiceError.NotFound` — propagated unchanged from `get_user_by_email` by
the `?` operator — and `NotFound` is a distinct outcome from the generic
`Unauthorized` the claim promises.  The claim as stated is false. -/
theorem login_unknown_email_not_generic :
    (login [] ⟨"a@x.com", "pw"⟩ 0 sampleCfg).fst = .error .NotFound ∧
    ServiceError.NotFound ≠ ServiceError.Unauthorized := by
  exact ⟨rfl, by decide⟩

/-- C1 (amended): for every login request whose email matches no stored
record, `login` returns the `NotFound` outcome propagated from the store
lookup (and leaves the store untouched); it is not mapped to a generic
`Unauthorized`, so the externally visible error does confirm email
non-existence. -/
theorem login_unknown_email_returns_notfound
    (st : Store) (request : LoginRequest) (now : Nat) (cfg : Config)
    (h : st.find? (fun u => u.email == request.email) = none) :
    login st request now cfg = (.error .NotFound, st) := by
  simp [login, get_user_by_email, h]

/-- Witness for `login_unknown_email_returns_notfound` at the empty store. -/
theorem login_unknown_email_returns_notfound_witness :
    ([] : Store).find? (fun u => u.email == "a@x.com") = none ∧
    login [] ⟨"a@x.com", "pw"⟩ 0 sampleCfg = (.error .NotFound, []) :=
  ⟨rfl, login_unknown_email_returns_notfound [] ⟨"a@x.com", "pw"⟩ 0 sampleCfg rfl⟩

/-- C2, counterexample: a token issued at time 1000 with TTL 3600 is still
accepted by `verify_jwt_token` at time 4601 = issuance + TTL + 1, because
`jsonwebtoken::Validation::default()` carries a 60-second expiry leeway;
the claim promises rejection with the `Expired` outcome at any time after
issuance + TTL. -/
theorem jwt_accepted_one_second_past_ttl :
    (verify_jwt_token (generate_jwt_token 1 "a@x.com" 1000 sampleCfg)
      (1000 + 3600 + 1) sampleCfg).isOk = true := by
  decide

/-- C2 (amended): for every token issued with TTL `ttl` seconds, `verify`
accepts the token (returning its claims) at any time up to
issuance + `ttl` + 60 — in particular at every time strictly before
issuance + `ttl` — and rejects it with the `TokenExpired` outcome at any
time after issuance + `ttl` + 60, where 60 seconds is the default expiry
leeway of `jsonwebtoken::Validation::default()`. -/
theorem jwt_expiry_with_default_leeway
    (userId : Nat) (email : String) (iat now ttl : Nat) (cfg : Config)
    (httl : cfg.jwt_expiration = (ttl : Int)) :
    (now ≤ iat + ttl + jwtDefaultLeeway →
      verify_jwt_token (generate_jwt_token userId email iat cfg) now cfg =
        .ok (Claims.new userId email cfg.jwt_expiration iat)) ∧
    (iat + ttl + jwtDefaultLeeway < now →
      verify_jwt_token (generate_jwt_token userId email iat cfg) now cfg =
        .error .TokenExpired) := by
  have hexp : ((iat : Int) + (ttl : Int)).toNat = iat + ttl := by
    rw [← Nat.cast_add, Int.toNat_ofNat]
  constructor <;> intro h <;> simp only [jwtDefaultLeeway] at h <;>
    simp only [verify_jwt_token, generate_jwt_token, Claims.new, httl, hexp,
      jwtDefaultLeeway, beq_self_eq_true, if_true]
  · rw [if_neg (by omega)]
  · rw [if_pos (by omega)]

/-- Witness for `jwt_expiry_with_default_leeway`: TTL 3600, issuance at
1000; still accepted at 4601, rejected as expired at 4661. -/
theorem jwt_expiry_with_default_leeway_witness :
    (sampleCfg.jwt_expiration = ((3600 : Nat) : Int)) ∧
    verify_jwt_token (generate_jwt_token 1 "a@x.com" 1000 sampleCfg)
      4601 sampleCfg = .ok (Claims.new 1 "a@x.com" 3600 1000) ∧
    verify_jwt_token (generate_jwt_token 1 "a@x.com" 1000 sampleCfg)
      4661 sampleCfg = .error .TokenExpired :=
  ⟨by decide,
   (jwt_expiry_with_default_leeway 1 "a@x.com" 1000 4601 3600 sampleCfg
      rfl).1 (by decide),
   (jwt_expiry_with_default_leeway 1 "a@x.com" 1000 4661 3600 sampleCfg
      rfl).2 (by decide)⟩

/-- C4: for every found record on which `can_login()` is false, `login`
returns `Unauthorized` with the store unchanged (so a correct password
does not unlock a locked record), and the outcome is identical for every
supplied password — no password comparison influences it. -/
theorem login_gated_on_can_login_before_password
    (st : Store) (email pw pw' : String) (now : Nat) (cfg : Config)
    (u : AuthUser)
    (hfind : get_user_by_email st email = .ok u)
    (hcl : u.can_login now = false) :
    login st ⟨email, pw⟩ now cfg = (.error .Unauthorized, st) ∧
    login st ⟨email, pw⟩ now cfg = login st ⟨email, pw'⟩ now cfg := by
  constructor <;> simp [login, hfind, hcl]

/-- Witness for `login_gated_on_can_login_before_password`: a record locked
until time 100, probed at time 50 with its correct password. -/
theorem login_gated_on_can_login_before_password_witness :
    get_user_by_email [sampleLockedUser] "a@x.com" = .ok sampleLockedUser ∧
    sampleLockedUser.can_login 50 = false ∧
    login [sampleLockedUser] ⟨"a@x.com", "Good1!aa"⟩ 50 sampleCfg =
      (.error .Unauthorized, [sampleLockedUser]) :=
  ⟨rfl, by decide,
   (login_gated_on_can_login_before_password [sampleLockedUser] "a@x.com"
      "Good1!aa" "other" 50 sampleCfg sampleLockedUser rfl (by decide)).1⟩

/-- C7: `request_password_reset` answers with the one generic success body
— the literal "If the email exists, a password reset link has been sent."
— both on a store holding a record for the email and on a store holding
none; the body is this constant for every value of the freshly issued
reset token, so the token never appears in (and never influences) the
response body. -/
theorem reset_request_anti_enumeration
    (stPresent stAbsent : Store) (email : String) (now1 now2 : Nat)
    (tok1 tok2 : String)
    (hp : (stPresent.find? (fun u => u.email == email)).isSome = true)
    (ha : stAbsent.find? (fun u => u.email == email) = none) :
    (request_password_reset stPresent ⟨email⟩ now1 tok1).fst =
      .ok ⟨"If the email exists, a password reset link has been sent."⟩ ∧
    (request_password_reset stAbsent ⟨email⟩ now2 tok2).fst =
      .ok ⟨"If the email exists, a password reset link has been sent."⟩ := by
  obtain ⟨u, hu⟩ := Option.isSome_iff_exists.mp hp
  constructor
  · simp [request_password_reset, get_user_by_email, hu]
  · simp [request_password_reset, get_user_by_email, ha]

/-- Witness for `reset_request_anti_enumeration`: a one-record store versus
the empty store, with two unrelated fresh tokens. -/
theorem reset_request_anti_enumeration_witness :
    (([sampleUser] : Store).find? (fun u => u.email == "a@x.com")).isSome
      = true ∧
    (request_password_reset [sampleUser] ⟨"a@x.com"⟩ 5 "tokA").fst =
      .ok ⟨"If the email exists, a password reset link has been sent."⟩ ∧
    (request_password_reset [] ⟨"a@x.com"⟩ 99 "tokB").fst =
      .ok ⟨"If the email exists, a password reset link has been sent."⟩ :=
  ⟨by decide,
   (reset_request_anti_enumeration [sampleUser] [] "a@x.com" 5 99
      "tokA" "tokB" (by decide) rfl).1,
   (reset_request_anti_enumeration [sampleUser] [] "a@x.com" 5 99
      "tokA" "tokB" (by decide) rfl).2⟩

/-- C10: for every stored record that is active and not locked, `login`
with the correct password succeeds and issues a session token even though
`is_verified` is false, and `refresh_token` likewise succeeds —
email verification is a precondition of neither. -/
theorem login_and_refresh_ignore_email_verification
    (st : Store) (email pw : String) (now : Nat) (cfg : Config)
    (u : AuthUser)
    (hfind : get_user_by_email st email = .ok u)
    (hactive : u.is_active = true)
    (hunlocked : u.is_locked now = false)
    (hunverified : u.is_verified = false)
    (hpw : bverify pw u.password_hash = true) :
    (login st ⟨email, pw⟩ now cfg).fst =
      .ok { access_token := generate_jwt_token u.id u.email now cfg
            token_type := "Bearer"
            expires_in := cfg.jwt_expiration
            user := UserInfo.ofAuthUser (u.reset_failed_attempts now) } ∧
    (∀ userId, get_user_by_id st userId = .ok u →
      (refresh_token st userId now cfg).isOk = true) := by
  have hcl : u.can_login now = true := by
    simp [AuthUser.can_login, hactive, hunlocked]
  constructor
  · simp [login, hfind, hcl, hpw, AuthUser.reset_failed_attempts]
  · intro userId hid
    simp [refresh_token, hid, hcl, Except.isOk, Except.toBool]

/-- Witness for `login_and_refresh_ignore_email_verification`: the sample
unverified, unlocked record logs in with its password and refreshes. -/
theorem login_and_refresh_ignore_email_verification_witness :
    get_user_by_email [sampleUser] "a@x.com" = .ok sampleUser ∧
    sampleUser.is_verified = false ∧
    (login [sampleUser] ⟨"a@x.com", "Good1!aa"⟩ 10 sampleCfg).fst =
      .ok { access_token := generate_jwt_token sampleUser.id sampleUser.email
              10 sampleCfg
            token_type := "Bearer"
            expires_in := sampleCfg.jwt_expiration
            user := UserInfo.ofAuthUser (sampleUser.reset_failed_attempts 10) } ∧
    (refresh_token [sampleUser] 7 10 sampleCfg).isOk = true :=
  ⟨rfl, by decide,
   (login_and_refresh_ignore_email_verification [sampleUser] "a@x.com"
      "Good1!aa" 10 sampleCfg sampleUser rfl (by decide) (by decide)
      (by decide) (by decide)).1,
   (login_and_refresh_ignore_email_verification [sampleUser] "a@x.com"
      "Good1!aa" 10 sampleCfg sampleUser rfl (by decide) (by decide)
      (by decide) (by decide)).2 7 rfl⟩

/-- The record after five consecutive failed-login penalties
(`increment_failed_attempts` applied at times `t1 ≤ … ≤ t5`, each the
clock reading of one failed `login`). -/
def afterFiveFailures (u : AuthUser) (t1 t2 t3 t4 t5 : Nat) : AuthUser :=
  ((((u.increment_failed_attempts t1).increment_failed_attempts
      t2).increment_failed_attempts t3).increment_failed_attempts
      t4).increment_failed_attempts t5

/-- C3: a record starting with zero failed attempts and unlocked has, after
5 consecutive failed-login penalties, `locked_until` equal to the time of
the 5th failure plus 15 minutes; `can_login()` is false at every instant
of that window; and `login` answers `Unauthorized` throughout the window
for every supplied password, the correct one included. -/
theorem five_failed_logins_lock_for_fifteen_minutes
    (u : AuthUser) (t1 t2 t3 t4 t5 : Nat) (cfg : Config)
    (hf : u.failed_login_attempts = 0) (hl : u.locked_until = none) :
    (afterFiveFailures u t1 t2 t3 t4 t5).locked_until = some (t5 + 15 * 60) ∧
    (∀ now, now < t5 + 15 * 60 →
      (afterFiveFailures u t1 t2 t3 t4 t5).can_login now = false) ∧
    (∀ st pw now, now < t5 + 15 * 60 →
      get_user_by_email st u.email = .ok (afterFiveFailures u t1 t2 t3 t4 t5) →
      (login st ⟨u.email, pw⟩ now cfg).fst = .error .Unauthorized) := by
  have h1 : (afterFiveFailures u t1 t2 t3 t4 t5).locked_until =
      some (t5 + 15 * 60) := by
    simp [afterFiveFailures, AuthUser.increment_failed_attempts, hf, hl]
  have h2 : ∀ now, now < t5 + 15 * 60 →
      (afterFiveFailures u t1 t2 t3 t4 t5).can_login now = false := by
    intro now hnow
    simp [AuthUser.can_login, AuthUser.is_locked, h1, hnow]
  refine ⟨h1, h2, ?_⟩
  intro st pw now hnow hfind
  simp [login, hfind, h2 now hnow]

/-- Witness for `five_failed_logins_lock_for_fifteen_minutes`: the sample
record fails at times 10, 20, 30, 40, 50 and is then probed with its
correct password at time 60, inside the lock window. -/
theorem five_failed_logins_lock_for_fifteen_minutes_witness :
    sampleUser.failed_login_attempts = 0 ∧
    sampleUser.locked_until = none ∧
    (afterFiveFailures sampleUser 10 20 30 40 50).locked_until =
      some (50 + 15 * 60) ∧
    (login [afterFiveFailures sampleUser 10 20 30 40 50]
        ⟨sampleUser.email, "Good1!aa"⟩ 60 sampleCfg).fst =
      .error .Unauthorized := by
  refine ⟨rfl, rfl, ?_, ?_⟩
  · exact (five_failed_logins_lock_for_fifteen_minutes sampleUser
      10 20 30 40 50 sampleCfg rfl rfl).1
  · exact (five_failed_logins_lock_for_fifteen_minutes sampleUser
      10 20 30 40 50 sampleCfg rfl rfl).2.2
      [afterFiveFailures sampleUser 10 20 30 40 50] "Good1!aa" 60
      (by decide) rfl

/-- C6: `generate_reset_token` at time `tIssue` sets the stored expiry to
exactly `tIssue + 3600`; on a store where the reset-token lookup resolves
to that record, `confirm_password_reset` succeeds exactly when the
current time is strictly before that expiry, and at or after it — e.g. at
`tIssue + 3601` — it fails with `InvalidToken`. -/
theorem reset_token_one_hour_window
    (u : AuthUser) (tok np : String) (tIssue : Nat) (st : Store)
    (cfg : Config)
    (hfind : get_user_by_reset_token st tok =
      .ok (u.generate_reset_token tok tIssue)) :
    (u.generate_reset_token tok tIssue).reset_token_expires =
      some (tIssue + 3600) ∧
    (∀ now, (confirm_password_reset st ⟨tok, np⟩ now cfg).fst.isOk = true ↔
      now < tIssue + 3600) ∧
    (∀ now, tIssue + 3600 ≤ now →
      (confirm_password_reset st ⟨tok, np⟩ now cfg).fst =
        .error .InvalidToken) := by
  have hvalid : ∀ now,
      (u.generate_reset_token tok tIssue).is_reset_token_valid tok now =
        decide (now < tIssue + 3600) := by
    intro now
    simp [AuthUser.is_reset_token_valid, AuthUser.generate_reset_token]
  refine ⟨rfl, ?_, ?_⟩
  · intro now
    by_cases hnow : now < tIssue + 3600 <;>
      simp [confirm_password_reset, hfind, hvalid, hnow, Except.isOk,
        Except.toBool]
  · intro now hnow
    have : ¬ now < tIssue + 3600 := by omega
    simp [confirm_password_reset, hfind, hvalid, this]

/-- Witness for `reset_token_one_hour_window`: token issued at time 1000;
confirm succeeds at 4599 and fails `InvalidToken` at 4601 = 1000 + 3601. -/
theorem reset_token_one_hour_window_witness :
    get_user_by_reset_token [sampleUser.generate_reset_token "rt" 1000] "rt" =
      .ok (sampleUser.generate_reset_token "rt" 1000) ∧
    (sampleUser.generate_reset_token "rt" 1000).reset_token_expires =
      some (1000 + 3600) ∧
    ((confirm_password_reset [sampleUser.generate_reset_token "rt" 1000]
        ⟨"rt", "NewP1!aa"⟩ 4599 sampleCfg).fst.isOk = true) ∧
    (confirm_password_reset [sampleUser.generate_reset_token "rt" 1000]
        ⟨"rt", "NewP1!aa"⟩ (1000 + 3601) sampleCfg).fst =
      .error .InvalidToken := by
  refine ⟨rfl, ?_, ?_, ?_⟩
  · exact (reset_token_one_hour_window sampleUser "rt" "NewP1!aa" 1000
      [sampleUser.generate_reset_token "rt" 1000] sampleCfg rfl).1
  · exact ((reset_token_one_hour_window sampleUser "rt" "NewP1!aa" 1000
      [sampleUser.generate_reset_token "rt" 1000] sampleCfg rfl).2.1
      4599).mpr (by decide)
  · exact (reset_token_one_hour_window sampleUser "rt" "NewP1!aa" 1000
      [sampleUser.generate_reset_token "rt" 1000] sampleCfg rfl).2.2
      (1000 + 3601) (by decide)

/-- `sampleUser` with `is_active := false` (a deactivated record). -/
def sampleInactiveUser : AuthUser := { sampleUser with is_active := false }

/-- `sampleUser` under the upper-cased email "A@x.com". -/
def sampleUpperUser : AuthUser := { sampleUser with email := "A@x.com" }

/-- ASCII lowercasing of a string, as character codes — used only to state
that two concrete emails are equal up to case. -/
def lowerCodes (s : String) : List Nat :=
  s.data.map fun c =>
    if 65 ≤ c.toNat ∧ c.toNat ≤ 90 then c.toNat + 32 else c.toNat

/-- C8, counterexample: the existence check of `register` is an exact
`WHERE email = $1` lookup with no activity filter and no case
normalization.  On a store whose only record is deactivated but has the
byte-identical email, `register` fails with `UserAlreadyExists` although
no active record resolves; on a store holding an active record under
"A@x.com", registering "a@x.com" succeeds although an active record with
the same case-normalized email exists.  Both directions of the claim's
"exactly when" are false. -/
theorem register_conflict_ignores_activity_and_case :
    (List.all [sampleInactiveUser] fun u => !u.is_active) = true ∧
    (register [sampleInactiveUser] ⟨"a@x.com", "Aa1!aaaa"⟩ 5 sampleCfg
      9 "vt2").fst = .error .UserAlreadyExists ∧
    sampleUpperUser.is_active = true ∧
    lowerCodes sampleUpperUser.email = lowerCodes "a@x.com" ∧
    (register [sampleUpperUser] ⟨"a@x.com", "Aa1!aaaa"⟩ 5 sampleCfg
      9 "vt2").fst =
      .ok ⟨"User registered successfully. Please check your email for verification."⟩ := by
  exact ⟨by decide, rfl, rfl, by decide, rfl⟩

/-- C8 (amended): `register` fails with `UserAlreadyExists` exactly when
any stored record — active or not — has an email byte-for-byte equal to
the requested one (no case normalization, no activity filter); otherwise
it appends the newly constructed record to the store and returns the
generic success message. -/
theorem register_conflict_exact_email
    (st : Store) (request : RegisterRequest) (now : Nat) (cfg : Config)
    (freshId : Nat) (vtok : String) :
    ((register st request now cfg freshId vtok).fst =
        .error .UserAlreadyExists ↔ ∃ u ∈ st, u.email = request.email) ∧
    ((∀ u ∈ st, u.email ≠ request.email) →
      register st request now cfg freshId vtok =
        (.ok ⟨"User registered successfully. Please check your email for verification."⟩,
         st ++ [AuthUser.new request.email
           (bhash request.password cfg.bcrypt_cost) now freshId vtok])) := by
  cases h : st.find? (fun u => u.email == request.email) with
  | some u =>
    have hmem := List.mem_of_find?_eq_some h
    have heq : u.email = request.email := by
      simpa using List.find?_some h
    constructor
    · have hfst : (register st request now cfg freshId vtok).fst =
          .error .UserAlreadyExists := by
        simp [register, get_user_by_email, h]
      exact iff_of_true hfst ⟨u, hmem, heq⟩
    · intro hall
      exact absurd heq (hall u hmem)
  | none =>
    have hnone : ∀ u ∈ st, u.email ≠ request.email := by
      intro v hv
      have := List.find?_eq_none.mp h v hv
      simpa using this
    constructor
    · simp only [register, get_user_by_email, h]
      constructor
      · intro hcontra
        exact absurd hcontra (by simp)
      · rintro ⟨v, hv, hveq⟩
        exact absurd hveq (hnone v hv)
    · intro _
      simp [register, get_user_by_email, h]

/-- Witness for `register_conflict_exact_email`: registering against the
empty store creates and persists the new record. -/
theorem register_conflict_exact_email_witness :
    (∀ u ∈ ([] : Store), u.email ≠ "a@x.com") ∧
    register [] ⟨"a@x.com", "Aa1!aaaa"⟩ 5 sampleCfg 9 "vt2" =
      (.ok ⟨"User registered successfully. Please check your email for verification."⟩,
       [AuthUser.new "a@x.com" (bhash "Aa1!aaaa" 12) 5 9 "vt2"]) :=
  ⟨by simp,
   (register_conflict_exact_email [] ⟨"a@x.com", "Aa1!aaaa"⟩ 5 sampleCfg
      9 "vt2").2 (by simp)⟩

/-- The record-level transitions of the account trust state machine
(the mutating methods of `AuthUser`), each carrying its clock reading and
any fresh secret it consumes. -/
inductive AuthOp where
  | incrementFailed (now : Nat)
  | resetFailed (now : Nat)
  | generateResetToken (freshToken : String) (now : Nat)
  | clearResetToken (now : Nat)
  | verifyEmailOp (now : Nat)
  | updatePassword (newHash : Hash) (now : Nat)

/-- Apply one state-machine transition to a record. -/
def applyOp (u : AuthUser) (op : AuthOp) : AuthUser :=
  match op with
  | .incrementFailed now => u.increment_failed_attempts now
  | .resetFailed now => u.reset_failed_attempts now
  | .generateResetToken tok now => u.generate_reset_token tok now
  | .clearResetToken now => u.clear_reset_token now
  | .verifyEmailOp now => u.verify_email now
  | .updatePassword h now => u.update_password h now

/-- The paired-reset-fields invariant: `reset_token` and
`reset_token_expires` are both present or both absent. -/
def resetPairConsistent (u : AuthUser) : Bool :=
  u.reset_token.isSome == u.reset_token_expires.isSome

/-- C9: starting from registration (`AuthUser::new`) and applying any
sequence of state-machine transitions — failed/successful login
penalties, reset-token issue/clear, email verification, password
update (the record-level effect of `consume_reset_token` and
`change_password`) — `reset_token` and `reset_token_expires` are always
both present or both absent; no transition leaves exactly one of the
pair set. -/
theorem reset_pair_always_consistent
    (email : String) (h : Hash) (now freshId : Nat) (vtok : String)
    (ops : List AuthOp) :
    resetPairConsistent
      (ops.foldl applyOp (AuthUser.new email h now freshId vtok)) = true := by
  have hstep : ∀ (u : AuthUser) (op : AuthOp),
      resetPairConsistent u = true → resetPairConsistent (applyOp u op) = true := by
    intro u op hu
    cases op <;>
      simp_all [applyOp, resetPairConsistent,
        AuthUser.increment_failed_attempts, AuthUser.reset_failed_attempts,
        AuthUser.generate_reset_token, AuthUser.clear_reset_token,
        AuthUser.verify_email, AuthUser.update_password]
  have hgen : ∀ (ops : List AuthOp) (u : AuthUser),
      resetPairConsistent u = true →
      resetPairConsistent (ops.foldl applyOp u) = true := by
    intro ops
    induction ops with
    | nil => intro u hu; exact hu
    | cons op rest ih => intro u hu; exact ih _ (hstep u op hu)
  exact hgen ops _ (by simp [resetPairConsistent, AuthUser.new])

/-- `sampleUser` with a pending reset token "tok" expiring at time 100. -/
def samplePendingResetUser : AuthUser :=
  { sampleUser with reset_token := some "tok", reset_token_expires := some 100 }

/-- C5, counterexample: after a successful `confirm_password_reset`, a
second call with the same token fails — but with `NotFound` (the `?` on
the reset-token lookup, which no longer matches any row), not with the
`InvalidToken` the claim promises. -/
theorem second_confirm_fails_notfound_not_invalidtoken :
    (confirm_password_reset [samplePendingResetUser] ⟨"tok", "NewP1!aa"⟩ 50
      sampleCfg).fst = .ok ⟨"Password reset successfully."⟩ ∧
    (confirm_password_reset
      (confirm_password_reset [samplePendingResetUser] ⟨"tok", "NewP1!aa"⟩ 50
        sampleCfg).snd ⟨"tok", "NewP2!aa"⟩ 60 sampleCfg).fst =
      .error .NotFound ∧
    ServiceError.NotFound ≠ ServiceError.InvalidToken := by
  exact ⟨rfl, rfl, by decide⟩

/-- C5 (amended): a successful `confirm_password_reset` replaces the
password hash and clears both `reset_token` and `reset_token_expires`;
a second call with the same token then fails — with `NotFound`, since the
lookup by reset token matches no record any more, rather than with
`InvalidToken`.  (The supplied token is assumed to identify at most one
stored record, as reset tokens are freshly generated UUIDs.) -/
theorem reset_token_single_use
    (st : Store) (tok np np' : String) (now now' : Nat) (cfg cfg' : Config)
    (u : AuthUser)
    (hfind : get_user_by_reset_token st tok = .ok u)
    (hvalid : u.is_reset_token_valid tok now = true)
    (huniq : ∀ v ∈ st, v.reset_token = some tok → v = u) :
    (confirm_password_reset st ⟨tok, np⟩ now cfg).fst =
      .ok ⟨"Password reset successfully."⟩ ∧
    (∀ v ∈ (confirm_password_reset st ⟨tok, np⟩ now cfg).snd, v.id = u.id →
        v.password_hash = bhash np cfg.bcrypt_cost ∧
        v.reset_token = none ∧ v.reset_token_expires = none) ∧
    (confirm_password_reset (confirm_password_reset st ⟨tok, np⟩ now cfg).snd
        ⟨tok, np'⟩ now' cfg').fst = .error .NotFound := by
  have hrun : confirm_password_reset st ⟨tok, np⟩ now cfg =
      (.ok ⟨"Password reset successfully."⟩,
       update_user_password st
         (u.update_password (bhash np cfg.bcrypt_cost) now)) := by
    simp [confirm_password_reset, hfind, hvalid]
  set u' := u.update_password (bhash np cfg.bcrypt_cost) now with hu'
  have hid : u'.id = u.id := rfl
  refine ⟨by rw [hrun], ?_, ?_⟩
  · rw [hrun]
    intro v hv hvid
    rcases List.mem_map.mp hv with ⟨w, hw, hvw⟩
    by_cases hwe : (w.id == u'.id) = true
    · rw [if_pos hwe] at hvw
      subst hvw
      exact ⟨rfl, rfl, rfl⟩
    · rw [if_neg hwe] at hvw
      subst hvw
      rw [hid] at hwe
      exact absurd (by simpa using hvid) hwe
  · have hnone : (update_user_password st u').find?
        (fun v => v.reset_token == some tok) = none := by
      apply List.find?_eq_none.mpr
      intro v hv
      rcases List.mem_map.mp hv with ⟨w, hw, hvw⟩
      by_cases hwe : (w.id == u'.id) = true
      · rw [if_pos hwe] at hvw
        subst hvw
        simp
        intro hcontra
        exact Option.noConfusion hcontra
      · rw [if_neg hwe] at hvw
        subst hvw
        simp only [beq_iff_eq]
        intro hcontra
        have hwu : w = u := huniq w hw hcontra
        rw [hwu, hid] at hwe
        exact hwe (by simp)
    rw [hrun]
    simp [confirm_password_reset, get_user_by_reset_token, hnone]

/-- Witness for `reset_token_single_use`: the single pending-reset sample
record, consumed at time 50; the second call at time 60 gets `NotFound`. -/
theorem reset_token_single_use_witness :
    get_user_by_reset_token [samplePendingResetUser] "tok" =
      .ok samplePendingResetUser ∧
    samplePendingResetUser.is_reset_token_valid "tok" 50 = true ∧
    (confirm_password_reset
      (confirm_password_reset [samplePendingResetUser] ⟨"tok", "NewP1!aa"⟩ 50
        sampleCfg).snd ⟨"tok", "NewP2!aa"⟩ 60 sampleCfg).fst =
      .error .NotFound :=
  ⟨rfl, by decide,
   (reset_token_single_use [samplePendingResetUser] "tok" "NewP1!aa"
      "NewP2!aa" 50 60 sampleCfg sampleCfg samplePendingResetUser rfl
      (by decide) (fun v hv _ => List.mem_singleton.mp hv)).2.2⟩
